import Mathlib

/-
Verification of the folio_curl pipeline (src/folio_curl.py).

The module resolves a catalog HRID into grouped item identifiers through a
remote FOLIO API:
  auth -> get_instances -> get_holdings (per instance) -> get_items (per holding)
  -> get_records (the orchestrator).

Shallow embedding conventions:
  * JSON response bodies are modelled by the inductive type Json below
    (null, booleans, strings, arrays, objects).  A body that fails JSON
    parsing (json.JSONDecodeError in Python) is modelled as a missing body,
    Option.none, in the environment.
  * Python runtime exceptions that the code can raise and does not catch
    (KeyError from dict subscripting, TypeError from iterating or
    subscripting a non-container) are modelled by the error type PyErr and
    the Except monad: an Except.error result models an exception that
    unwinds out of the function.
  * The network is modelled by an Env record: for each endpoint a function
    from the request data that the code actually varies (token, base url,
    identifier, tenant) to the parsed response body (none = unparsable).
    Transport-level faults (connection refused and similar) are outside the
    model, as in the spec they propagate fatally and carry no logic.
  * The print calls in the source are output-only debugging and carry no
    data flow; they are not modelled.  Which network calls a run performs
    is recorded instead in an explicit call trace (the Call type), so that
    claims about resolvers being invoked or skipped are statable.
-/

/-- JSON values as relevant to the code under verification. -/
inductive Json where
  | null : Json
  | bool : Bool → Json
  | str : String → Json
  | arr : List Json → Json
  | obj : List (String × Json) → Json

/-- Python exceptions that the code can raise and leave uncaught:
KeyError from a missing dict key, TypeError from subscripting or iterating
a value of the wrong type. -/
inductive PyErr where
  | keyError : String → PyErr
  | typeError : PyErr

/-- Python truthiness of a JSON value, as used by the conditions
`if response_json[...]` in the source. -/
def pyTruthy : Json → Bool
  | Json.null => false
  | Json.bool b => b
  | Json.str s => !s.isEmpty
  | Json.arr xs => !xs.isEmpty
  | Json.obj fs => !fs.isEmpty

/-- Python subscripting `value[key]` with a string key: on a dict it looks
the key up and raises KeyError when missing; on any other JSON value it
raises TypeError. -/
def pySubscript (j : Json) (key : String) : Except PyErr Json :=
  match j with
  | Json.obj fs =>
      match fs.find? (fun p => p.1 = key) with
      | some p => Except.ok p.2
      | none => Except.error (PyErr.keyError key)
  | _ => Except.error PyErr.typeError

/-- Python iteration over a JSON value: lists yield their elements, strings
their one-character substrings, dicts their keys; other values raise
TypeError. -/
def pyIter : Json → Except PyErr (List Json)
  | Json.arr xs => Except.ok xs
  | Json.str s => Except.ok (s.toList.map (fun c => Json.str (String.singleton c)))
  | Json.obj fs => Except.ok (fs.map (fun p => Json.str p.1))
  | _ => Except.error PyErr.typeError

/-- The list comprehension `[element[key] for element in elems]`:
subscripts every element, propagating the first exception. -/
def pyMapSubscript (key : String) : List Json → Except PyErr (List Json)
  | [] => Except.ok []
  | j :: js =>
      match pySubscript j key with
      | Except.error e => Except.error e
      | Except.ok v =>
          match pyMapSubscript key js with
          | Except.error e => Except.error e
          | Except.ok vs => Except.ok (v :: vs)

/-- The remote API as seen by one pipeline run.  Each field maps the data
the code varies in the request to the parsed response:
  * tokenHeader: the x-okapi-token response header of POST /authn/login,
    as a function of (url, username, password, tenant); none models an
    absent header.
  * instancesBody, holdingsBody, itemsBody: the body of the corresponding
    GET, as a function of (token, url, identifier, tenant); none models a
    body that fails JSON parsing. -/
structure Env where
  tokenHeader : String → String → String → String → Option String
  instancesBody : Option String → String → String → String → Option Json
  holdingsBody : Option String → String → Json → String → Option Json
  itemsBody : Option String → String → Json → String → Option Json

/-- auth (src/folio_curl.py lines 9 to 36): posts the credentials and
returns `response.headers.get('x-okapi-token')`, which is the header value
when present and None when absent; `.get` never raises. -/
def auth (env : Env) (url username password tenant : String) : Option String :=
  env.tokenHeader url username password tenant

/-- The query string built at src/folio_curl.py line 59. -/
def instances_query (hrid : String) : String :=
  "(hrid==\"" ++ hrid ++ "\" NOT discoverySuppress==true)"

/-- The query string built at src/folio_curl.py line 106. -/
def holdings_query (instance_id : String) : String :=
  "(instanceId==\"" ++ instance_id ++ "\" NOT discoverySuppress==true)"

/-- The query string built at src/folio_curl.py lines 149 to 151. -/
def items_query (holding_id : String) : String :=
  "(holdingsRecordId==\"" ++ holding_id ++ "\" NOT discoverySuppress==true)"

/-- Modelled from the spec, section 6: the instance query format
`(hrid=="<hrid>" NOT discoverySuppress==true)`. -/
def spec_instances_query (hrid : String) : String :=
  "(hrid==\"" ++ hrid ++ "\" NOT discoverySuppress==true)"

/-- Modelled from the spec, section 6: the holdings query format
`(instanceId=="<id>" NOT discoverySuppress==true)`. -/
def spec_holdings_query (instance_id : String) : String :=
  "(instanceId==\"" ++ instance_id ++ "\" NOT discoverySuppress==true)"

/-- Modelled from the spec, section 6: the items query format
`(holdingsRecordId=="<id>" NOT discoverySuppress==true)`. -/
def spec_items_query (holding_id : String) : String :=
  "(holdingsRecordId==\"" ++ holding_id ++ "\" NOT discoverySuppress==true)"

/-- get_instances (src/folio_curl.py lines 39 to 83).
`response.json()` failing (modelled: body none) is caught and yields [].
Otherwise `response_json['instances']` is subscripted (KeyError and
TypeError are NOT caught), its truthiness is tested, and when truthy the
ids are collected by `[instance['id'] for instance in ...]`. -/
def get_instances (env : Env) (token : Option String) (url hrid tenant : String) :
    Except PyErr (List Json) :=
  match env.instancesBody token url hrid tenant with
  | none => Except.ok []
  | some response_json =>
      match pySubscript response_json "instances" with
      | Except.error e => Except.error e
      | Except.ok insts =>
          if pyTruthy insts then
            match pyIter insts with
            | Except.error e => Except.error e
            | Except.ok elems => pyMapSubscript "id" elems
          else
            Except.ok []

/-- get_holdings (src/folio_curl.py lines 86 to 126).
The try block covers the request and `response.json()`; a JSON parse
failure (modelled: body none) yields None, the Python absent value,
modelled as Option.none inside Except.ok.  The subscripting at line 118 is
outside the try, so KeyError and TypeError propagate. -/
def get_holdings (env : Env) (token : Option String) (url : String)
    (instance_id : Json) (tenant : String) :
    Except PyErr (Option (List Json)) :=
  match env.holdingsBody token url instance_id tenant with
  | none => Except.ok none
  | some response_json =>
      match pySubscript response_json "holdingsRecords" with
      | Except.error e => Except.error e
      | Except.ok hs =>
          match pyIter hs with
          | Except.error e => Except.error e
          | Except.ok elems =>
              match pyMapSubscript "id" elems with
              | Except.error e => Except.error e
              | Except.ok ids => Except.ok (some ids)

/-- get_items (src/folio_curl.py lines 129 to 171).
The try block covers the request, `response.json()` and the comprehension,
but the except clause catches only json.JSONDecodeError, so a parse
failure (modelled: body none) yields [] while KeyError and TypeError from
the comprehension propagate. -/
def get_items (env : Env) (token : Option String) (url : String)
    (holding_id : Json) (tenant : String) :
    Except PyErr (List Json) :=
  match env.itemsBody token url holding_id tenant with
  | none => Except.ok []
  | some response_json =>
      match pySubscript response_json "items" with
      | Except.error e => Except.error e
      | Except.ok its =>
          match pyIter its with
          | Except.error e => Except.error e
          | Except.ok elems => pyMapSubscript "id" elems

/-- One network call performed during a run, with the data the code passes
to the corresponding resolver. -/
inductive Call where
  | authC : String → String → String → String → Call
  | instC : Option String → String → String → String → Call
  | holdC : Option String → String → Json → String → Call
  | itemC : Option String → String → Json → String → Call

/-- The inner loop of get_records (src/folio_curl.py lines 202 to 207):
for each holding, get_items is called and, since get_items always returns
a list and never None, the guard `if items is not None` always holds and
the group is appended.  An uncaught exception from get_items aborts the
loop, keeping the calls made so far in the trace. -/
def holdings_loop (env : Env) (token : Option String) (url tenant : String) :
    List Json → List (List Json) → Except PyErr (List (List Json)) × List Call
  | [], item_ids => (Except.ok item_ids, [])
  | holding_id :: rest, item_ids =>
      match get_items env token url holding_id tenant with
      | Except.error e => (Except.error e, [Call.itemC token url holding_id tenant])
      | Except.ok items =>
          let p := holdings_loop env token url tenant rest (item_ids ++ [items])
          (p.1, Call.itemC token url holding_id tenant :: p.2)

/-- The outer loop of get_records (src/folio_curl.py lines 198 to 207):
for each instance, get_holdings is called; the guard `if holding_ids` is
false both for None and for the empty list, and in those two cases the
instance contributes nothing; otherwise the inner loop runs.  An uncaught
exception aborts the loop, keeping the calls made so far in the trace. -/
def instances_loop (env : Env) (token : Option String) (url tenant : String) :
    List Json → List (List Json) → Except PyErr (List (List Json)) × List Call
  | [], item_ids => (Except.ok item_ids, [])
  | instance_id :: rest, item_ids =>
      match get_holdings env token url instance_id tenant with
      | Except.error e => (Except.error e, [Call.holdC token url instance_id tenant])
      | Except.ok none =>
          let p := instances_loop env token url tenant rest item_ids
          (p.1, Call.holdC token url instance_id tenant :: p.2)
      | Except.ok (some []) =>
          let p := instances_loop env token url tenant rest item_ids
          (p.1, Call.holdC token url instance_id tenant :: p.2)
      | Except.ok (some (h :: hs)) =>
          match holdings_loop env token url tenant (h :: hs) item_ids with
          | (Except.error e, cs) =>
              (Except.error e, Call.holdC token url instance_id tenant :: cs)
          | (Except.ok acc, cs) =>
              let p := instances_loop env token url tenant rest acc
              (p.1, Call.holdC token url instance_id tenant :: (cs ++ p.2))

/-- The part of get_records after the token is obtained
(src/folio_curl.py lines 193 to 208): get_instances runs once; when the
result list is empty (`if not instance_ids`) the function returns []
without touching holdings or items; otherwise the nested loops run. -/
def records_with_token (env : Env) (token : Option String) (url tenant hrid : String) :
    Except PyErr (List (List Json)) × List Call :=
  match get_instances env token url hrid tenant with
  | Except.error e => (Except.error e, [Call.instC token url hrid tenant])
  | Except.ok instance_ids =>
      if instance_ids.isEmpty then
        (Except.ok [], [Call.instC token url hrid tenant])
      else
        let p := instances_loop env token url tenant instance_ids []
        (p.1, Call.instC token url hrid tenant :: p.2)

/-- get_records (src/folio_curl.py lines 174 to 208), with its call trace:
auth runs once and its token, present or absent, is passed unchanged to
the rest of the pipeline. -/
def get_records_run (env : Env) (url username password tenant hrid : String) :
    Except PyErr (List (List Json)) × List Call :=
  let p := records_with_token env (auth env url username password tenant) url tenant hrid
  (p.1, Call.authC url username password tenant :: p.2)

/-- The value returned by get_records. -/
def get_records (env : Env) (url username password tenant hrid : String) :
    Except PyErr (List (List Json)) :=
  (get_records_run env url username password tenant hrid).1

/-- When get_items succeeds on every holding in the list, the inner loop
appends exactly one group per holding, in order, and performs exactly one
item call per holding, in order. -/
theorem holdings_loop_spec (env : Env) (token : Option String) (url tenant : String)
    (I : Json → List Json) (l : List Json) (acc : List (List Json))
    (hI : ∀ h ∈ l, get_items env token url h tenant = Except.ok (I h)) :
    holdings_loop env token url tenant l acc =
      (Except.ok (acc ++ l.map I), l.map (fun h => Call.itemC token url h tenant)) := by
  induction l generalizing acc with
  | nil => simp [holdings_loop]
  | cons h t ih =>
      have hh : get_items env token url h tenant = Except.ok (I h) :=
        hI h (List.mem_cons_self h t)
      have ht : ∀ x ∈ t, get_items env token url x tenant = Except.ok (I x) :=
        fun x hx => hI x (List.mem_cons_of_mem h hx)
      simp only [holdings_loop, hh]
      rw [ih (acc ++ [I h]) ht]
      simp

/-- When get_holdings succeeds on every instance in the list (with optH i
its returned value: none models the Python None from a parse failure) and
get_items succeeds on every holding of every instance, the outer loop
appends one group per holding of every instance in order, instances with
None or empty holdings contributing nothing, and the trace holds one
holdings call per instance followed by one item call per visited holding. -/
theorem instances_loop_spec (env : Env) (token : Option String) (url tenant : String)
    (optH : Json → Option (List Json)) (I : Json → List Json)
    (l : List Json) (acc : List (List Json))
    (hH : ∀ i ∈ l, get_holdings env token url i tenant = Except.ok (optH i))
    (hI : ∀ i ∈ l, ∀ h ∈ (optH i).getD [],
      get_items env token url h tenant = Except.ok (I h)) :
    instances_loop env token url tenant l acc =
      (Except.ok (acc ++ l.flatMap (fun i => ((optH i).getD []).map I)),
       l.flatMap (fun i => Call.holdC token url i tenant ::
         ((optH i).getD []).map (fun h => Call.itemC token url h tenant))) := by
  induction l generalizing acc with
  | nil => simp [instances_loop]
  | cons i t ih =>
      have hi : get_holdings env token url i tenant = Except.ok (optH i) :=
        hH i (List.mem_cons_self i t)
      have hii : ∀ h ∈ (optH i).getD [], get_items env token url h tenant = Except.ok (I h) :=
        hI i (List.mem_cons_self i t)
      have ht : ∀ x ∈ t, get_holdings env token url x tenant = Except.ok (optH x) :=
        fun x hx => hH x (List.mem_cons_of_mem i hx)
      have hti : ∀ x ∈ t, ∀ h ∈ (optH x).getD [],
          get_items env token url h tenant = Except.ok (I h) :=
        fun x hx => hI x (List.mem_cons_of_mem i hx)
      cases hopt : optH i with
      | none =>
          rw [hopt] at hi
          simp only [instances_loop, hi]
          rw [ih acc ht hti]
          simp [hopt]
      | some hs =>
          rw [hopt] at hi
          cases hs with
          | nil =>
              simp only [instances_loop, hi]
              rw [ih acc ht hti]
              simp [hopt]
          | cons h hs2 =>
              simp only [instances_loop, hi]
              rw [holdings_loop_spec env token url tenant I (h :: hs2) acc
                (by rw [hopt] at hii; simpa using hii)]
              dsimp only
              rw [ih (acc ++ List.map I (h :: hs2)) ht hti]
              simp [hopt, List.append_assoc]

/-- Characterization of the pipeline below auth on a run where instance,
holdings and item lookups all return (possibly empty, possibly absent)
values rather than raising. -/
theorem records_with_token_spec (env : Env) (token : Option String)
    (url tenant hrid : String)
    (instIds : List Json) (optH : Json → Option (List Json)) (I : Json → List Json)
    (hInst : get_instances env token url hrid tenant = Except.ok instIds)
    (hH : ∀ i ∈ instIds, get_holdings env token url i tenant = Except.ok (optH i))
    (hI : ∀ i ∈ instIds, ∀ h ∈ (optH i).getD [],
      get_items env token url h tenant = Except.ok (I h)) :
    records_with_token env token url tenant hrid =
      (Except.ok (instIds.flatMap (fun i => ((optH i).getD []).map I)),
       Call.instC token url hrid tenant ::
         instIds.flatMap (fun i => Call.holdC token url i tenant ::
           ((optH i).getD []).map (fun h => Call.itemC token url h tenant))) := by
  simp only [records_with_token, hInst]
  cases instIds with
  | nil => simp
  | cons i t =>
      rw [if_neg (by simp)]
      rw [instances_loop_spec env token url tenant optH I (i :: t) [] hH hI]
      simp

/-- Characterization of a full run of get_records under the same
hypotheses, with the auth call at the head of the trace. -/
theorem get_records_run_spec (env : Env) (url username password tenant hrid : String)
    (instIds : List Json) (optH : Json → Option (List Json)) (I : Json → List Json)
    (hInst : get_instances env (auth env url username password tenant) url hrid tenant
      = Except.ok instIds)
    (hH : ∀ i ∈ instIds, get_holdings env (auth env url username password tenant) url i tenant
      = Except.ok (optH i))
    (hI : ∀ i ∈ instIds, ∀ h ∈ (optH i).getD [],
      get_items env (auth env url username password tenant) url h tenant = Except.ok (I h)) :
    get_records_run env url username password tenant hrid =
      (Except.ok (instIds.flatMap (fun i => ((optH i).getD []).map I)),
       Call.authC url username password tenant ::
       Call.instC (auth env url username password tenant) url hrid tenant ::
         instIds.flatMap (fun i =>
           Call.holdC (auth env url username password tenant) url i tenant ::
           ((optH i).getD []).map (fun h =>
             Call.itemC (auth env url username password tenant) url h tenant))) := by
  simp only [get_records_run]
  rw [records_with_token_spec env (auth env url username password tenant) url tenant hrid
    instIds optH I hInst hH hI]

/-- A fully healthy remote: one instance, one holding, one item, a token. -/
def demo_env : Env where
  tokenHeader := fun _ _ _ _ => some "valid-token"
  instancesBody := fun _ _ _ _ =>
    some (Json.obj [("instances", Json.arr [Json.obj [("id", Json.str "instance-id-1")]])])
  holdingsBody := fun _ _ _ _ =>
    some (Json.obj [("holdingsRecords", Json.arr [Json.obj [("id", Json.str "holding-id-1")]])])
  itemsBody := fun _ _ _ _ =>
    some (Json.obj [("items", Json.arr [Json.obj [("id", Json.str "item-id-1")]])])

/-- A remote on which the HRID matches no instance. -/
def empty_env : Env where
  tokenHeader := fun _ _ _ _ => some "valid-token"
  instancesBody := fun _ _ _ _ => some (Json.obj [("instances", Json.arr [])])
  holdingsBody := fun _ _ _ _ =>
    some (Json.obj [("holdingsRecords", Json.arr [Json.obj [("id", Json.str "holding-id-1")]])])
  itemsBody := fun _ _ _ _ =>
    some (Json.obj [("items", Json.arr [Json.obj [("id", Json.str "item-id-1")]])])

/-- A remote every response body of which fails JSON parsing, and with no
token header. -/
def unparsable_env : Env where
  tokenHeader := fun _ _ _ _ => none
  instancesBody := fun _ _ _ _ => none
  holdingsBody := fun _ _ _ _ => none
  itemsBody := fun _ _ _ _ => none

/-- A remote whose bodies are valid JSON objects lacking the expected
field. -/
def missing_field_env : Env where
  tokenHeader := fun _ _ _ _ => some "valid-token"
  instancesBody := fun _ _ _ _ => some (Json.obj [])
  holdingsBody := fun _ _ _ _ => some (Json.obj [])
  itemsBody := fun _ _ _ _ => some (Json.obj [])

/-- Like demo_env but every holding has zero items. -/
def noitems_env : Env where
  tokenHeader := fun _ _ _ _ => some "valid-token"
  instancesBody := fun _ _ _ _ =>
    some (Json.obj [("instances", Json.arr [Json.obj [("id", Json.str "instance-id-1")]])])
  holdingsBody := fun _ _ _ _ =>
    some (Json.obj [("holdingsRecords", Json.arr [Json.obj [("id", Json.str "holding-id-1")]])])
  itemsBody := fun _ _ _ _ => some (Json.obj [("items", Json.arr [])])

/-- Like demo_env but every item response body fails JSON parsing. -/
def faileditems_env : Env where
  tokenHeader := fun _ _ _ _ => some "valid-token"
  instancesBody := fun _ _ _ _ =>
    some (Json.obj [("instances", Json.arr [Json.obj [("id", Json.str "instance-id-1")]])])
  holdingsBody := fun _ _ _ _ =>
    some (Json.obj [("holdingsRecords", Json.arr [Json.obj [("id", Json.str "holding-id-1")]])])
  itemsBody := fun _ _ _ _ => none

/-- Like demo_env but the login response carries no token header. -/
def noauth_env : Env where
  tokenHeader := fun _ _ _ _ => none
  instancesBody := fun _ _ _ _ =>
    some (Json.obj [("instances", Json.arr [Json.obj [("id", Json.str "instance-id-1")]])])
  holdingsBody := fun _ _ _ _ =>
    some (Json.obj [("holdingsRecords", Json.arr [Json.obj [("id", Json.str "holding-id-1")]])])
  itemsBody := fun _ _ _ _ =>
    some (Json.obj [("items", Json.arr [Json.obj [("id", Json.str "item-id-1")]])])

/-- Two instances; the holdings body parses only for the first instance,
the second holdings response body fails JSON parsing. -/
def mixed_env : Env where
  tokenHeader := fun _ _ _ _ => some "valid-token"
  instancesBody := fun _ _ _ _ =>
    some (Json.obj [("instances", Json.arr
      [Json.obj [("id", Json.str "instance-id-1")],
       Json.obj [("id", Json.str "instance-id-2")]])])
  holdingsBody := fun _ _ instance_id _ =>
    match instance_id with
    | Json.str "instance-id-1" =>
        some (Json.obj [("holdingsRecords", Json.arr [Json.obj [("id", Json.str "holding-id-1")]])])
    | _ => none
  itemsBody := fun _ _ _ _ =>
    some (Json.obj [("items", Json.arr [Json.obj [("id", Json.str "item-id-1")]])])

/-- C1: on a run where authentication, instance, holdings and item lookups
all succeed, get_records returns exactly one item-identifier group per
holding visited, in visit order: holdings are visited instance by instance
in the order instances were returned and, within an instance, in the order
holdings were returned. -/
theorem c1_one_group_per_holding_in_order (env : Env)
    (url username password tenant hrid : String)
    (instIds : List Json) (H I : Json → List Json)
    (hInst : get_instances env (auth env url username password tenant) url hrid tenant
      = Except.ok instIds)
    (hH : ∀ i ∈ instIds, get_holdings env (auth env url username password tenant) url i tenant
      = Except.ok (some (H i)))
    (hI : ∀ i ∈ instIds, ∀ h ∈ H i,
      get_items env (auth env url username password tenant) url h tenant = Except.ok (I h)) :
    get_records env url username password tenant hrid =
      Except.ok ((instIds.flatMap H).map I) := by
  simp only [get_records]
  rw [get_records_run_spec env url username password tenant hrid instIds
    (fun i => some (H i)) I hInst (by simpa using hH) (by simpa using hI)]
  simp [List.map_flatMap]

/-- C1 witness: on demo_env the single instance has a single holding with
a single item, and the run returns that one group. -/
theorem c1_witness :
    get_records demo_env "url" "user" "pass" "tenant" "hrid" =
      Except.ok [[Json.str "item-id-1"]] := by
  have h := c1_one_group_per_holding_in_order demo_env "url" "user" "pass" "tenant" "hrid"
    [Json.str "instance-id-1"] (fun _ => [Json.str "holding-id-1"])
    (fun _ => [Json.str "item-id-1"]) rfl
    (fun i _ => rfl) (fun i _ h _ => rfl)
  simpa using h

/-- C2: when instance resolution returns the empty result, get_records
returns the empty list and the run performs exactly the auth call and the
instance call: the holdings resolver and the item resolver are never
invoked. -/
theorem c2_empty_instances_short_circuit (env : Env)
    (url username password tenant hrid : String)
    (hInst : get_instances env (auth env url username password tenant) url hrid tenant
      = Except.ok []) :
    get_records_run env url username password tenant hrid =
      (Except.ok [],
       [Call.authC url username password tenant,
        Call.instC (auth env url username password tenant) url hrid tenant]) := by
  simp [get_records_run, records_with_token, hInst]

/-- C2 witness: on empty_env the instance query matches nothing and the
run stops after the auth and instance calls. -/
theorem c2_witness :
    get_records_run empty_env "url" "user" "pass" "tenant" "hrid" =
      (Except.ok [],
       [Call.authC "url" "user" "pass" "tenant",
        Call.instC (some "valid-token") "url" "hrid" "tenant"]) :=
  c2_empty_instances_short_circuit empty_env "url" "user" "pass" "tenant" "hrid" rfl

/-- C7: auth returns exactly the token string carried in the x-okapi-token
response header when that header is present, and None when it is absent;
in both cases it returns a value rather than raising. -/
theorem c7_auth_returns_header (env : Env) (url username password tenant : String) :
    (∀ tok : String, env.tokenHeader url username password tenant = some tok →
      auth env url username password tenant = some tok) ∧
    (env.tokenHeader url username password tenant = none →
      auth env url username password tenant = none) :=
  ⟨fun _ h => h, fun h => h⟩

/-- C7 witness: on demo_env the header is present and auth returns its
string; on unparsable_env the header is absent and auth returns None. -/
theorem c7_witness :
    auth demo_env "url" "user" "pass" "tenant" = some "valid-token" ∧
    auth unparsable_env "url" "user" "pass" "tenant" = none :=
  ⟨(c7_auth_returns_header demo_env "url" "user" "pass" "tenant").1 "valid-token" rfl,
   (c7_auth_returns_header unparsable_env "url" "user" "pass" "tenant").2 rfl⟩

/-- C9: for every hrid, instance identifier and holding identifier, the
query strings the resolvers build equal the formats of the remote API
contract in the spec. -/
theorem c9_queries_match_contract (hrid instance_id holding_id : String) :
    instances_query hrid = spec_instances_query hrid ∧
    holdings_query instance_id = spec_holdings_query instance_id ∧
    items_query holding_id = spec_items_query holding_id :=
  ⟨rfl, rfl, rfl⟩

/-- C3 counterexample: on a remote whose bodies all fail JSON parsing,
get_instances and get_items return the empty sequence while get_holdings
returns the absent value None, and the absent value is not the empty
sequence: the failure signal is not uniform across the three resolvers. -/
theorem c3_counterexample :
    get_instances unparsable_env none "url" "hrid" "tenant" = Except.ok [] ∧
    get_holdings unparsable_env none "url" (Json.str "instance-id-1") "tenant"
      = Except.ok none ∧
    get_items unparsable_env none "url" (Json.str "holding-id-1") "tenant"
      = Except.ok [] ∧
    (Except.ok none : Except PyErr (Option (List Json))) ≠ Except.ok (some []) :=
  ⟨rfl, rfl, rfl, by simp⟩

/-- C3 amended: on an unparsable response body, get_instances returns the
empty sequence, get_items returns the empty sequence, and get_holdings
returns the absent value None; the failure signal is mixed, not uniform. -/
theorem c3_mixed_failure_signals (env : Env) (token : Option String)
    (url hrid tenant : String) (instance_id holding_id : Json)
    (h1 : env.instancesBody token url hrid tenant = none)
    (h2 : env.holdingsBody token url instance_id tenant = none)
    (h3 : env.itemsBody token url holding_id tenant = none) :
    get_instances env token url hrid tenant = Except.ok [] ∧
    get_holdings env token url instance_id tenant = Except.ok none ∧
    get_items env token url holding_id tenant = Except.ok [] := by
  refine ⟨?_, ?_, ?_⟩ <;>
    simp [get_instances, get_holdings, get_items, h1, h2, h3]

/-- C3 amended witness: the mixed signals at the concrete unparsable
remote. -/
theorem c3_mixed_failure_signals_witness :
    get_instances unparsable_env none "u" "h" "t" = Except.ok [] ∧
    get_holdings unparsable_env none "u" (Json.str "i") "t" = Except.ok none ∧
    get_items unparsable_env none "u" (Json.str "x") "t" = Except.ok [] :=
  c3_mixed_failure_signals unparsable_env none "u" "h" "t"
    (Json.str "i") (Json.str "x") rfl rfl rfl

/-- C4 counterexample: on a response body that is valid JSON but lacks the
expected field, every resolver raises an uncaught KeyError (modelled as an
Except.error result) instead of returning its empty or absent sentinel. -/
theorem c4_counterexample :
    get_instances missing_field_env (some "valid-token") "url" "hrid" "tenant"
      = Except.error (PyErr.keyError "instances") ∧
    get_holdings missing_field_env (some "valid-token") "url"
      (Json.str "instance-id-1") "tenant"
      = Except.error (PyErr.keyError "holdingsRecords") ∧
    get_items missing_field_env (some "valid-token") "url"
      (Json.str "holding-id-1") "tenant"
      = Except.error (PyErr.keyError "items") ∧
    (Except.error (PyErr.keyError "instances") : Except PyErr (List Json))
      ≠ Except.ok [] :=
  ⟨rfl, rfl, rfl, by simp⟩

/-- C4 amended: when the response body fails JSON parsing each resolver
returns its sentinel (empty for instances and items, absent for holdings)
without raising; but when the body is valid JSON lacking the expected
field, each resolver raises an uncaught KeyError naming that field. -/
theorem c4_soft_fail_only_for_parse_failure (env : Env) (token : Option String)
    (url hrid tenant : String) (instance_id holding_id : Json) :
    (env.instancesBody token url hrid tenant = none →
      get_instances env token url hrid tenant = Except.ok []) ∧
    (env.holdingsBody token url instance_id tenant = none →
      get_holdings env token url instance_id tenant = Except.ok none) ∧
    (env.itemsBody token url holding_id tenant = none →
      get_items env token url holding_id tenant = Except.ok []) ∧
    (env.instancesBody token url hrid tenant = some (Json.obj []) →
      get_instances env token url hrid tenant
        = Except.error (PyErr.keyError "instances")) ∧
    (env.holdingsBody token url instance_id tenant = some (Json.obj []) →
      get_holdings env token url instance_id tenant
        = Except.error (PyErr.keyError "holdingsRecords")) ∧
    (env.itemsBody token url holding_id tenant = some (Json.obj []) →
      get_items env token url holding_id tenant
        = Except.error (PyErr.keyError "items")) := by
  refine ⟨fun h => ?_, fun h => ?_, fun h => ?_, fun h => ?_, fun h => ?_, fun h => ?_⟩ <;>
    simp [get_instances, get_holdings, get_items, h, pySubscript]

/-- C4 amended witness: the sentinel on the unparsable remote and the
KeyError on the missing-field remote, at concrete inputs. -/
theorem c4_soft_fail_only_for_parse_failure_witness :
    get_instances unparsable_env none "u" "h" "t" = Except.ok [] ∧
    get_instances missing_field_env none "u" "h" "t"
      = Except.error (PyErr.keyError "instances") :=
  ⟨(c4_soft_fail_only_for_parse_failure unparsable_env none "u" "h" "t"
      (Json.str "i") (Json.str "x")).1 rfl,
   (c4_soft_fail_only_for_parse_failure missing_field_env none "u" "h" "t"
      (Json.str "i") (Json.str "x")).2.2.2.1 rfl⟩

/-- C5: on a run where all lookups succeed, a holding whose item lookup
returns zero items still occupies its position in the grouped output as an
empty group: the output has exactly one group per holding and position k
holds the empty group when the k-th holding has zero items. -/
theorem c5_empty_groups_preserved (env : Env)
    (url username password tenant hrid : String)
    (instIds : List Json) (H I : Json → List Json)
    (hInst : get_instances env (auth env url username password tenant) url hrid tenant
      = Except.ok instIds)
    (hH : ∀ i ∈ instIds, get_holdings env (auth env url username password tenant) url i tenant
      = Except.ok (some (H i)))
    (hI : ∀ i ∈ instIds, ∀ h ∈ H i,
      get_items env (auth env url username password tenant) url h tenant = Except.ok (I h))
    (k : Nat) (hk : k < (instIds.flatMap H).length)
    (hz : I ((instIds.flatMap H).get ⟨k, hk⟩) = []) :
    ∃ out, get_records env url username password tenant hrid = Except.ok out ∧
      out.length = (instIds.flatMap H).length ∧
      out[k]? = some [] := by
  refine ⟨(instIds.flatMap H).map I, ?_, by simp, ?_⟩
  · simp only [get_records]
    rw [get_records_run_spec env url username password tenant hrid instIds
      (fun i => some (H i)) I hInst (by simpa using hH) (by simpa using hI)]
    simp [List.map_flatMap]
  · rw [List.getElem?_map, List.getElem?_eq_getElem hk]
    simpa using hz

/-- C5 witness: on noitems_env the single holding has zero items and the
output is the one-element list holding the empty group. -/
theorem c5_witness :
    ∃ out, get_records noitems_env "url" "user" "pass" "tenant" "hrid" = Except.ok out ∧
      out.length = (([Json.str "instance-id-1"].flatMap
        (fun _ => [Json.str "holding-id-1"])).length) ∧
      out[0]? = some [] :=
  c5_empty_groups_preserved noitems_env "url" "user" "pass" "tenant" "hrid"
    [Json.str "instance-id-1"] (fun _ => [Json.str "holding-id-1"]) (fun _ => [])
    rfl (fun i _ => rfl) (fun i _ h _ => rfl) 0 (by simp) rfl

/-- C6: on a run where every holdings lookup returns a value (possibly the
absent None from a parse failure, possibly the empty list) and every item
lookup on visited holdings returns a value, each such soft failure removes
only the contribution of its own branch: every sibling instance still gets
its holdings call, every visited holding still gets its item call, and
their groups appear unchanged, as witnessed by the exact value and the
exact call trace of the run. -/
theorem c6_soft_failure_isolated_to_branch (env : Env)
    (url username password tenant hrid : String)
    (instIds : List Json) (optH : Json → Option (List Json)) (I : Json → List Json)
    (hInst : get_instances env (auth env url username password tenant) url hrid tenant
      = Except.ok instIds)
    (hH : ∀ i ∈ instIds, get_holdings env (auth env url username password tenant) url i tenant
      = Except.ok (optH i))
    (hI : ∀ i ∈ instIds, ∀ h ∈ (optH i).getD [],
      get_items env (auth env url username password tenant) url h tenant = Except.ok (I h)) :
    get_records_run env url username password tenant hrid =
      (Except.ok (instIds.flatMap (fun i => ((optH i).getD []).map I)),
       Call.authC url username password tenant ::
       Call.instC (auth env url username password tenant) url hrid tenant ::
         instIds.flatMap (fun i =>
           Call.holdC (auth env url username password tenant) url i tenant ::
           ((optH i).getD []).map (fun h =>
             Call.itemC (auth env url username password tenant) url h tenant))) :=
  get_records_run_spec env url username password tenant hrid instIds optH I hInst hH hI

/-- C6 witness: on mixed_env the first instance resolves one holding with
one item while the second instance suffers a holdings parse failure; the
run still visits both instances and returns the first branch unchanged. -/
theorem c6_witness :
    get_records_run mixed_env "url" "user" "pass" "tenant" "hrid" =
      (Except.ok [[Json.str "item-id-1"]],
       Call.authC "url" "user" "pass" "tenant" ::
       Call.instC (some "valid-token") "url" "hrid" "tenant" ::
       Call.holdC (some "valid-token") "url" (Json.str "instance-id-1") "tenant" ::
       Call.itemC (some "valid-token") "url" (Json.str "holding-id-1") "tenant" ::
       [Call.holdC (some "valid-token") "url" (Json.str "instance-id-2") "tenant"]) := by
  have h := c6_soft_failure_isolated_to_branch mixed_env "url" "user" "pass" "tenant" "hrid"
    [Json.str "instance-id-1", Json.str "instance-id-2"]
    (fun i => match i with
      | Json.str "instance-id-1" => some [Json.str "holding-id-1"]
      | _ => none)
    (fun _ => [Json.str "item-id-1"]) rfl
    (by intro i hi
        simp at hi
        rcases hi with rfl | rfl <;> rfl)
    (by intro i hi h hh
        simp at hi
        rcases hi with rfl | rfl
        · rfl
        · simp at hh)
  simpa using h

/-- Whatever the instance lookup returns, the pipeline below auth always
performs the instance call first, carrying the token it was given. -/
theorem records_with_token_first_call (env : Env) (token : Option String)
    (url tenant hrid : String) :
    (records_with_token env token url tenant hrid).2.head?
      = some (Call.instC token url hrid tenant) := by
  simp only [records_with_token]
  cases get_instances env token url hrid tenant with
  | error e => rfl
  | ok ids =>
      cases ids with
      | nil => rfl
      | cons a t => rfl

/-- C8: when authentication yields no token, get_records does not short
circuit: the instance resolver is still invoked, with the absent token
passed through, and the whole run is exactly the token-generic pipeline
applied to the absent token. -/
theorem c8_absent_token_no_short_circuit (env : Env)
    (url username password tenant hrid : String)
    (hnone : env.tokenHeader url username password tenant = none) :
    (get_records_run env url username password tenant hrid).2[1]?
      = some (Call.instC none url hrid tenant) ∧
    get_records_run env url username password tenant hrid =
      ((records_with_token env none url tenant hrid).1,
       Call.authC url username password tenant ::
         (records_with_token env none url tenant hrid).2) := by
  have ha : auth env url username password tenant = none := hnone
  constructor
  · simp only [get_records_run, ha]
    rw [List.getElem?_cons_succ]
    rw [show ((records_with_token env none url tenant hrid).2)[0]?
        = (records_with_token env none url tenant hrid).2.head? from
      (List.head?_eq_getElem? _).symm]
    exact records_with_token_first_call env none url tenant hrid
  · simp only [get_records_run, ha]

/-- C8 witness: on noauth_env the token header is absent and the run still
calls the instance resolver with the absent token and completes the
pipeline. -/
theorem c8_witness :
    (get_records_run noauth_env "url" "user" "pass" "tenant" "hrid").2[1]?
      = some (Call.instC none "url" "hrid" "tenant") ∧
    get_records_run noauth_env "url" "user" "pass" "tenant" "hrid" =
      ((records_with_token noauth_env none "url" "tenant" "hrid").1,
       Call.authC "url" "user" "pass" "tenant" ::
         (records_with_token noauth_env none "url" "tenant" "hrid").2) :=
  c8_absent_token_no_short_circuit noauth_env "url" "user" "pass" "tenant" "hrid" rfl

/-- The body of an item response with zero items. -/
def zero_items_body : Json := Json.obj [("items", Json.arr [])]

/-- The same remote, with every unparsable item response body replaced by
a well-formed body carrying zero items. -/
def patch_items (env : Env) : Env :=
  { env with itemsBody := fun token url holding_id tenant =>
      match env.itemsBody token url holding_id tenant with
      | none => some zero_items_body
      | some b => some b }

/-- get_items cannot tell an unparsable item body from a zero-item body:
patching the former into the latter leaves its result unchanged. -/
theorem get_items_patch (env : Env) (token : Option String) (url : String)
    (holding_id : Json) (tenant : String) :
    get_items (patch_items env) token url holding_id tenant
      = get_items env token url holding_id tenant := by
  simp only [get_items, patch_items]
  cases env.itemsBody token url holding_id tenant with
  | none => rfl
  | some b => rfl

/-- The inner loop is unchanged by the zero-items patch. -/
theorem holdings_loop_patch (env : Env) (token : Option String) (url tenant : String)
    (l : List Json) (acc : List (List Json)) :
    holdings_loop (patch_items env) token url tenant l acc
      = holdings_loop env token url tenant l acc := by
  induction l generalizing acc with
  | nil => rfl
  | cons h t ih =>
      simp only [holdings_loop, get_items_patch]
      cases get_items env token url h tenant with
      | error e => rfl
      | ok items => simp only [ih]

/-- The outer loop is unchanged by the zero-items patch. -/
theorem instances_loop_patch (env : Env) (token : Option String) (url tenant : String)
    (l : List Json) (acc : List (List Json)) :
    instances_loop (patch_items env) token url tenant l acc
      = instances_loop env token url tenant l acc := by
  induction l generalizing acc with
  | nil => rfl
  | cons i t ih =>
      have hg : get_holdings (patch_items env) token url i tenant
          = get_holdings env token url i tenant := rfl
      simp only [instances_loop, hg, holdings_loop_patch]
      cases get_holdings env token url i tenant with
      | error e => rfl
      | ok o =>
          cases o with
          | none => simp only [ih]
          | some hs =>
              cases hs with
              | nil => simp only [ih]
              | cons h hs2 =>
                  dsimp only
                  rcases hl : holdings_loop env token url tenant (h :: hs2) acc with ⟨r, cs⟩
                  cases r with
                  | error e => rfl
                  | ok acc2 => simp only [ih]

/-- A full run is unchanged by the zero-items patch. -/
theorem get_records_patch (env : Env) (url username password tenant hrid : String) :
    get_records (patch_items env) url username password tenant hrid
      = get_records env url username password tenant hrid := by
  have ha : auth (patch_items env) url username password tenant
      = auth env url username password tenant := rfl
  have hi : get_instances (patch_items env) (auth env url username password tenant)
      url hrid tenant
      = get_instances env (auth env url username password tenant) url hrid tenant := rfl
  simp only [get_records, get_records_run, records_with_token, ha, hi,
    instances_loop_patch]

/-- C10: on a run whose instance and holdings lookups succeed, a visited
holding whose item response body fails JSON parsing yields the empty group
for get_items, the grouped output of get_records holds the empty group at
that holding's position with the group count unchanged, and the whole run
equals the run against the remote in which that unparsable body is
replaced by a well-formed zero-items body: the output cannot distinguish
the two. -/
theorem c10_unparsable_items_look_like_zero_items (env : Env)
    (url username password tenant hrid : String)
    (instIds : List Json) (optH : Json → Option (List Json)) (I : Json → List Json)
    (hInst : get_instances env (auth env url username password tenant) url hrid tenant
      = Except.ok instIds)
    (hH : ∀ i ∈ instIds, get_holdings env (auth env url username password tenant) url i tenant
      = Except.ok (optH i))
    (hI : ∀ i ∈ instIds, ∀ h ∈ (optH i).getD [],
      get_items env (auth env url username password tenant) url h tenant = Except.ok (I h))
    (k : Nat) (hk : k < (instIds.flatMap (fun i => (optH i).getD [])).length)
    (hfail : env.itemsBody (auth env url username password tenant) url
      ((instIds.flatMap (fun i => (optH i).getD [])).get ⟨k, hk⟩) tenant = none) :
    get_items env (auth env url username password tenant) url
      ((instIds.flatMap (fun i => (optH i).getD [])).get ⟨k, hk⟩) tenant = Except.ok [] ∧
    ∃ out, get_records env url username password tenant hrid = Except.ok out ∧
      out.length = (instIds.flatMap (fun i => (optH i).getD [])).length ∧
      out[k]? = some [] ∧
      get_records (patch_items env) url username password tenant hrid = Except.ok out := by
  have hempty : get_items env (auth env url username password tenant) url
      ((instIds.flatMap (fun i => (optH i).getD [])).get ⟨k, hk⟩) tenant = Except.ok [] := by
    have hfail2 := hfail
    simp only [List.get_eq_getElem] at hfail2
    simp [get_items, hfail2]
  have hmem : ((instIds.flatMap (fun i => (optH i).getD [])).get ⟨k, hk⟩)
      ∈ instIds.flatMap (fun i => (optH i).getD []) :=
    List.get_mem _ k hk
  obtain ⟨i, hiMem, hhMem⟩ := List.mem_flatMap.mp hmem
  have hIk : I ((instIds.flatMap (fun i => (optH i).getD [])).get ⟨k, hk⟩) = [] := by
    have := hI i hiMem _ hhMem
    rw [hempty] at this
    exact (Except.ok.injEq _ _).mp this.symm
  refine ⟨hempty, (instIds.flatMap (fun i => (optH i).getD [])).map I, ?_, by simp, ?_, ?_⟩
  · simp only [get_records]
    rw [get_records_run_spec env url username password tenant hrid instIds optH I hInst hH hI]
    simp [List.map_flatMap]
  · rw [List.getElem?_map, List.getElem?_eq_getElem hk]
    simpa using hIk
  · rw [get_records_patch]
    simp only [get_records]
    rw [get_records_run_spec env url username password tenant hrid instIds optH I hInst hH hI]
    simp [List.map_flatMap]

/-- C10 witness: on faileditems_env the single visited holding has an
unparsable item body; get_items yields the empty group, the output is the
one-element list holding the empty group, and the patched remote with a
zero-items body gives the same output. -/
theorem c10_witness :
    get_items faileditems_env (auth faileditems_env "url" "user" "pass" "tenant") "url"
      (([Json.str "instance-id-1"].flatMap
        (fun _ => (some [Json.str "holding-id-1"]).getD [])).get
        ⟨0, by simp⟩) "tenant" = Except.ok [] ∧
    ∃ out, get_records faileditems_env "url" "user" "pass" "tenant" "hrid" = Except.ok out ∧
      out.length = ([Json.str "instance-id-1"].flatMap
        (fun _ => (some [Json.str "holding-id-1"]).getD [])).length ∧
      out[0]? = some [] ∧
      get_records (patch_items faileditems_env) "url" "user" "pass" "tenant" "hrid"
        = Except.ok out :=
  c10_unparsable_items_look_like_zero_items faileditems_env "url" "user" "pass" "tenant" "hrid"
    [Json.str "instance-id-1"] (fun _ => some [Json.str "holding-id-1"])
    (fun _ => []) rfl (fun i _ => rfl) (fun i _ h _ => rfl) 0 (by simp) rfl
